import Mathlib

/-
  Verification of the anki-mcp-server translation layer.

  The embedding models, from the source files under src/src/anki_mcp_server/:
  - utils.py: the exception classes and transform_anki_connect_response;
  - anki_connect_client.py: AsyncAnkiConnectClient.request, _ensure_client,
    close and check_connection, over an explicit client state and an explicit
    transport behaviour (the outcome of the single HTTP POST);
  - server.py: the lazily created shared client instance (get_anki_client),
    _execute_anki_request, and the parameter shapes declared in model.py.
  JSON documents are modelled by an inductive Json type; a Python dict is an
  association list, and the Python convention that dict.get of a missing key
  and a JSON null both give None is modelled by pyGet returning Json.null.
-/

namespace AnkiMCP

/-- JSON values exchanged with the Anki-Connect endpoint. -/
inductive Json where
  | null : Json
  | bool : Bool → Json
  | num : Int → Json
  | str : String → Json
  | arr : List Json → Json
  | obj : List (String × Json) → Json
deriving Repr

/-- Python dict.get with default None: a missing key and an explicit JSON
null are both returned as Json.null. -/
def pyGet : List (String × Json) → String → Json
  | [], _ => Json.null
  | p :: rest, k => if p.1 = k then p.2 else pyGet rest k

/-- Test whether a JSON value is null (Python: value is None). -/
def Json.isNull : Json → Bool
  | Json.null => true
  | _ => false

/-- The exception classes declared in utils.py. -/
inductive ExcClass where
  | ankiConnectError
  | resourceError
  | toolError
deriving Repr, DecidableEq

/-- An exception instance: its class together with the message passed to the
constructor (utils.py stores the constructor argument as message). -/
structure AnkiExc where
  cls : ExcClass
  msg : Json
deriving Repr

/-- Whether an Except value is a success. -/
def isOkB {e a : Type} : Except e a → Bool
  | Except.ok _ => true
  | Except.error _ => false

/-- The exception class carried by a failure outcome, if any. -/
def errClassOf {a : Type} : Except AnkiExc a → Option ExcClass
  | Except.error ex => some ex.cls
  | Except.ok _ => none

/-- utils.transform_anki_connect_response: if response.get("error") is not
None, raise AnkiConnectError(response["error"]); otherwise return
response.get("result"). -/
def transform_anki_connect_response (response : List (String × Json)) :
    Except AnkiExc Json :=
  if (pyGet response "error").isNull then
    Except.ok (pyGet response "result")
  else
    Except.error ⟨ExcClass.ankiConnectError, pyGet response "error"⟩

/-- Client configuration, from config.py and the AsyncAnkiConnectClient
constructor in anki_connect_client.py: url, optional api key, protocol
version, timeout. -/
structure ClientConfig where
  url : String
  api_key : Option String
  version : Int
  timeout : Int
deriving Repr

/-- Python truthiness of an optional string: None and the empty string are
falsy (the source guards the key field with: if self.api_key). -/
def strOptTruthy : Option String → Bool
  | none => false
  | some s => !s.isEmpty

/-- A Pydantic parameter model instance as a record of field values, where
Option.none stands for a Python None field value. -/
def PModel := List (String × Option Json)

/-- Pydantic model_dump with exclude_none set: fields whose value is None
are left out of the dumped object. -/
def modelDumpExcludeNone (m : PModel) : List (String × Json) :=
  m.filterMap (fun p => p.2.map (fun v => (p.1, v)))

/-- Construction of request_data in AsyncAnkiConnectClient.request: always
action and version; params only when a model argument was passed (a Pydantic
model instance is always truthy in Python, so even a model with no fields
contributes a params entry); key only when the configured api key is
truthy. -/
def buildRequestData (cfg : ClientConfig) (action : String)
    (model : Option PModel) : List (String × Json) :=
  let base := [("action", Json.str action), ("version", Json.num cfg.version)]
  let withParams :=
    match model with
    | some m => base ++ [("params", Json.obj (modelDumpExcludeNone m))]
    | none => base
  match cfg.api_key with
  | some k => if k.isEmpty then withParams else withParams ++ [("key", Json.str k)]
  | none => withParams

/-- The key names of a JSON object given as an association list. -/
def keysOf (o : List (String × Json)) : List String := o.map Prod.fst

/-- The possible outcomes of the single HTTP POST performed by
AsyncAnkiConnectClient.request, as seen by the except clauses of the
source: httpx.RequestError with its rendered text, httpx.HTTPStatusError
with its rendered text (raised by raise_for_status on a non-success
status), json.JSONDecodeError from response.json(), or a successfully
parsed JSON object body. -/
inductive TransportBehavior where
  | connectFailure (detail : String)
  | httpStatusFailure (excText : String)
  | invalidJson (detail : String)
  | jsonObject (body : List (String × Json))
deriving Repr

/-- Outcome of AsyncAnkiConnectClient.request for a given transport
behaviour, following the try/except block of the source: each httpx or
json failure is re-raised as an AnkiConnectError with the corresponding
formatted message, and a parsed body goes through
transform_anki_connect_response (whose AnkiConnectError is not caught by
any of the three except clauses and so propagates verbatim). -/
def requestResult (b : TransportBehavior) : Except AnkiExc Json :=
  match b with
  | TransportBehavior.connectFailure d =>
      Except.error ⟨ExcClass.ankiConnectError,
        Json.str ("Failed to connect to Anki-Connect: " ++ d)⟩
  | TransportBehavior.httpStatusFailure t =>
      Except.error ⟨ExcClass.ankiConnectError,
        Json.str ("Anki-Connect returned HTTP error: " ++ t)⟩
  | TransportBehavior.invalidJson _ =>
      Except.error ⟨ExcClass.ankiConnectError,
        Json.str "Invalid response from Anki-Connect"⟩
  | TransportBehavior.jsonObject body => transform_anki_connect_response body

/-- Mutable state of an AsyncAnkiConnectClient instance: the held
httpx.AsyncClient (identified by a number so that recreation is
observable), or none when not yet created or closed. nextId supplies fresh
identities. -/
structure ClientState where
  client : Option Nat
  nextId : Nat
deriving Repr, DecidableEq

/-- AsyncAnkiConnectClient._ensure_client: create the httpx client when it
is None, otherwise leave the state untouched. -/
def ensure_client (s : ClientState) : ClientState :=
  match s.client with
  | some _ => s
  | none => { client := some s.nextId, nextId := s.nextId + 1 }

/-- AsyncAnkiConnectClient.close: aclose the held client if any and set it
to None. -/
def close_client (s : ClientState) : ClientState :=
  { s with client := none }

/-- AsyncAnkiConnectClient.request as a state transition: it first ensures
the httpx client, then performs one POST whose serialized body is
buildRequestData and whose outcome is requestResult; no except branch
touches the client state. Returns (new state, serialized request body,
outcome). -/
def clientRequest (cfg : ClientConfig) (s : ClientState) (action : String)
    (model : Option PModel) (b : TransportBehavior) :
    ClientState × List (String × Json) × Except AnkiExc Json :=
  (ensure_client s, buildRequestData cfg action model, requestResult b)

/-- AsyncAnkiConnectClient.check_connection: request("version") with no
model inside a try block catching every Exception; True on success, False
on any failure. Returns (new state, serialized request body, boolean). -/
def check_connection (cfg : ClientConfig) (s : ClientState)
    (b : TransportBehavior) : ClientState × List (String × Json) × Bool :=
  let r := clientRequest cfg s "version" none b
  (r.1, r.2.1, isOkB r.2.2)

/-- Process-wide state of server.py: the module global
_anki_client_instance (an instance identity paired with its mutable client
state, or none before first use) and a count of AsyncAnkiConnectClient
constructions performed so far (used as the identity of the next
instance). -/
structure ServerState where
  inst : Option (Nat × ClientState)
  created : Nat
deriving Repr, DecidableEq

/-- The state at process start: no instance yet. -/
def initialServerState : ServerState := { inst := none, created := 0 }

/-- server.get_anki_client: return the global instance, creating it (and
ensuring its httpx client) on first use. Returns the new server state, the
identity of the instance handed out, and its client state. -/
def get_anki_client (w : ServerState) : ServerState × Nat × ClientState :=
  match w.inst with
  | some ic => (w, ic)
  | none =>
      let cs := ensure_client { client := none, nextId := 0 }
      ({ inst := some (w.created, cs), created := w.created + 1 }, w.created, cs)

/-- What one dispatched call did: which instance it used, whether the POST
was issued, the serialized request body, and the outcome handed back. -/
structure DispatchRecord where
  instId : Nat
  sendInvoked : Bool
  sent : List (String × Json)
  outcome : Except AnkiExc Json
deriving Repr

/-- server._execute_anki_request: obtain the shared client via
get_anki_client and forward to its request method, returning its result
unchanged; the mutated instance state is written back to the global. -/
def dispatchStep (cfg : ClientConfig) (w : ServerState) (action : String)
    (model : Option PModel) (b : TransportBehavior) :
    ServerState × DispatchRecord :=
  let g := get_anki_client w
  let r := clientRequest cfg g.2.2 action model b
  ({ g.1 with inst := some (g.2.1, r.1) },
   { instId := g.2.1, sendInvoked := true, sent := r.2.1, outcome := r.2.2 })

/-- An explicit close of the shared instance
(AsyncAnkiConnectClient.close): the held httpx client is released and set
to None; the global instance itself stays registered. -/
def closeStep (w : ServerState) : ServerState :=
  match w.inst with
  | some ic => { w with inst := some (ic.1, close_client ic.2) }
  | none => w

/-- One operation of the process: a dispatched tool call or an explicit
close of the shared client. -/
inductive Op where
  | dispatch (action : String) (model : Option PModel) (b : TransportBehavior)
  | close

/-- Run a sequence of operations from a server state, collecting the
record of every dispatched call. -/
def runOps (cfg : ClientConfig) (w : ServerState) :
    List Op → ServerState × List DispatchRecord
  | [] => (w, [])
  | Op.dispatch a m b :: rest =>
      let s := dispatchStep cfg w a m b
      let t := runOps cfg s.1 rest
      (t.1, s.2 :: t.2)
  | Op.close :: rest => runOps cfg (closeStep w) rest

/-- Whether the held httpx client of the registered instance is absent
(true also when no instance exists yet). -/
def instClientIsNone (w : ServerState) : Bool :=
  match w.inst with
  | some ic => ic.2.client.isNone
  | none => true

/-- Whether an instance is registered and its held httpx client is
present. -/
def instClientIsSome (w : ServerState) : Bool :=
  match w.inst with
  | some ic => ic.2.client.isSome
  | none => false

/-- Invariant of the server state: before first use no construction has
happened; afterwards exactly one instance, with identity 0, has been
constructed. -/
def serverInv (w : ServerState) : Bool :=
  match w.inst with
  | none => w.created == 0
  | some ic => ic.1 == 0 && w.created == 1

/-- Value checkers for the semantic field types used in model.py. -/
def isStr : Json → Bool
  | Json.str _ => true
  | _ => false

/-- Checker for an integer-valued field. -/
def isInt : Json → Bool
  | Json.num _ => true
  | _ => false

/-- Checker for a boolean-valued field. -/
def isBool : Json → Bool
  | Json.bool _ => true
  | _ => false

/-- Checker for a list-of-strings field. -/
def isStrList : Json → Bool
  | Json.arr xs => xs.all isStr
  | _ => false

/-- Checker for a list-of-integers field. -/
def isIntList : Json → Bool
  | Json.arr xs => xs.all isInt
  | _ => false

/-- Checker for the Literal True type of the cardsToo field of
DeleteDecksParams in model.py: only the boolean true is accepted. -/
def isLitTrue : Json → Bool
  | Json.bool b => b
  | _ => false

/-- Checker for an object-valued field. -/
def isObj : Json → Bool
  | Json.obj _ => true
  | _ => false

/-- A checker for an optional field: Pydantic Optional also accepts an
explicit null. -/
def orNull (check : Json → Bool) (v : Json) : Bool :=
  v.isNull || check v

/-- One declared field of an input shape: its name, whether it is
required, and the checker for its value, mirroring the Field declarations
of model.py. -/
structure FieldSpec where
  fname : String
  required : Bool
  check : Json → Bool

/-- How a model treats fields absent from its declared shape. model.py
sets extra to allow only on DeckConfigObject; every other model uses the
Pydantic default, which silently ignores (drops) unknown fields. No model
in model.py declares the forbid policy. -/
inductive ExtraPolicy where
  | ignore
  | allow
deriving Repr, DecidableEq

/-- Declared required fields of the shape that the raw parameter object
does not supply. -/
def missingFields (shape : List FieldSpec) (raw : List (String × Json)) :
    List String :=
  (shape.filter
    (fun f => f.required && !(raw.any (fun p => p.1 == f.fname)))).map
    (fun f => f.fname)

/-- Supplied fields that are declared in the shape but fail its value
check. -/
def badFields (shape : List FieldSpec) (raw : List (String × Json)) :
    List String :=
  (raw.filter
    (fun p => shape.any (fun f => f.fname == p.1 && !(f.check p.2)))).map
    (fun p => p.1)

/-- Validation of a raw parameter object against a declared shape,
modelling the Pydantic validation performed by the FastMCP layer before a
tool body runs (the validation engine itself is a dependency, not code of
this repository): missing required fields are rejected and named, present
fields failing their type check are rejected and named, and unknown
fields are handled per the extra policy of the model, the validated
instance keeping only declared fields under ignore and every field under
allow. -/
def validateShape (shape : List FieldSpec) (policy : ExtraPolicy)
    (raw : List (String × Json)) :
    Except (List String) (List (String × Json)) :=
  if !(missingFields shape raw).isEmpty then
    Except.error (missingFields shape raw)
  else if !(badFields shape raw).isEmpty then
    Except.error (badFields shape raw)
  else
    match policy with
    | ExtraPolicy.allow => Except.ok raw
    | ExtraPolicy.ignore =>
        Except.ok (raw.filter (fun p => shape.any (fun f => f.fname == p.1)))

/-- Input shape of DeleteDecksParams (model.py): decks, a required list of
strings, and cardsToo, required and restricted to the literal true. -/
def DeleteDecksShape : List FieldSpec :=
  [⟨"decks", true, isStrList⟩, ⟨"cardsToo", true, isLitTrue⟩]

/-- Input shape of CardsParam (model.py): cards, a required list of
integers. -/
def CardsShape : List FieldSpec :=
  [⟨"cards", true, isIntList⟩]

/-- Input shape of DeckConfigObject (model.py): required id and name, the
remaining declared fields optional; this is the one model declaring extra
allow. -/
def DeckConfigShape : List FieldSpec :=
  [⟨"id", true, isInt⟩, ⟨"name", true, isStr⟩,
   ⟨"mod", false, orNull isInt⟩, ⟨"usn", false, orNull isInt⟩,
   ⟨"dyn", false, orNull isBool⟩, ⟨"autoplay", false, orNull isBool⟩,
   ⟨"timer", false, orNull isInt⟩, ⟨"replayq", false, orNull isBool⟩,
   ⟨"maxTaken", false, orNull isInt⟩, ⟨"new", false, orNull isObj⟩,
   ⟨"lapse", false, orNull isObj⟩, ⟨"rev", false, orNull isObj⟩,
   ⟨"other", false, orNull isObj⟩]

/-- A failure as seen by the caller of a tool: a validation failure naming
the offending fields, or an exception from the client layer. -/
inductive ToolFailure where
  | validation (fields : List String)
  | anki (e : AnkiExc)
deriving Repr

/-- A dispatched tool call including the validation performed by the
hosting layer before the tool body runs: on validation failure the tool
body, and hence the transport, is never invoked; on success the validated
fields form the Pydantic model instance forwarded through
_execute_anki_request (a field given as an explicit null becomes a None
field value, which model_dump with exclude_none then omits). Returns the
new server state, whether the POST was issued, and the outcome. -/
def dispatchValidated (cfg : ClientConfig) (w : ServerState)
    (shape : List FieldSpec) (policy : ExtraPolicy) (action : String)
    (raw : List (String × Json)) (b : TransportBehavior) :
    ServerState × Bool × Except ToolFailure Json :=
  match validateShape shape policy raw with
  | Except.error fs => (w, false, Except.error (ToolFailure.validation fs))
  | Except.ok kept =>
      let m : PModel :=
        kept.map (fun p => (p.1, if p.2.isNull then Option.none else some p.2))
      let s := dispatchStep cfg w action (some m) b
      (s.1, true,
       match s.2.outcome with
       | Except.ok v => Except.ok v
       | Except.error e => Except.error (ToolFailure.anki e))

/-- Whether a tool outcome is a validation failure. -/
def isValidationError : Except ToolFailure Json → Bool
  | Except.error (ToolFailure.validation _) => true
  | _ => false

/-- The default configuration of config.py when no environment overrides
are present: localhost endpoint, no api key, protocol version 6, timeout
30 seconds. -/
def cfgNoKey : ClientConfig :=
  { url := "http://localhost:8765", api_key := none, version := 6, timeout := 30 }

/-- Idempotence of _ensure_client: ensuring an already ensured client
changes nothing. -/
theorem ensure_client_idem (s : ClientState) :
    ensure_client (ensure_client s) = ensure_client s := by
  cases h : s.client <;> simp [ensure_client, h]

/-- The ensured client state always holds an httpx client. -/
theorem ensure_client_isSome (s : ClientState) :
    (ensure_client s).client.isSome = true := by
  cases h : s.client <;> simp [ensure_client, h]

/-- C10: response-envelope normalization raises exactly when the error
value is not null; an empty-string error raises AnkiConnectError carrying
the empty message rather than returning the result, and a null error with
no result key returns the null value. -/
theorem C10_transform_error_iff :
    ∀ env : List (String × Json),
      (isOkB (transform_anki_connect_response env) = (pyGet env "error").isNull)
    ∧ (transform_anki_connect_response [("error", Json.str ""), ("result", Json.str "r")]
        = Except.error ⟨ExcClass.ankiConnectError, Json.str ""⟩)
    ∧ (transform_anki_connect_response [("error", Json.null)] = Except.ok Json.null) := by
  intro env
  refine ⟨?_, rfl, rfl⟩
  by_cases h : (pyGet env "error").isNull = true
  · simp [transform_anki_connect_response, h, isOkB]
  · simp only [Bool.not_eq_true] at h
    simp [transform_anki_connect_response, h, isOkB]

/-- C1 (amended): through the dispatch layer, an envelope whose error
field is non-null fails with AnkiConnectError whose message is exactly the
error value, and an envelope whose error field is null succeeds. -/
theorem C1_error_propagation :
    ∀ (cfg : ClientConfig) (w : ServerState) (a : String) (m : Option PModel)
      (env : List (String × Json)),
      ((pyGet env "error").isNull = false →
        (dispatchStep cfg w a m (TransportBehavior.jsonObject env)).2.outcome
          = Except.error ⟨ExcClass.ankiConnectError, pyGet env "error"⟩)
    ∧ ((pyGet env "error").isNull = true →
        (dispatchStep cfg w a m (TransportBehavior.jsonObject env)).2.outcome
          = Except.ok (pyGet env "result")) := by
  intro cfg w a m env
  constructor <;> intro h <;>
    simp [dispatchStep, clientRequest, requestResult,
      transform_anki_connect_response, h]

/-- Witness for the C1 theorem at two concrete envelopes. -/
theorem C1_error_propagation_witness :
    ((dispatchStep cfgNoKey initialServerState "deckNames" none
        (TransportBehavior.jsonObject [("error", Json.str "deck was not found")])).2.outcome
      = Except.error ⟨ExcClass.ankiConnectError, Json.str "deck was not found"⟩)
    ∧ ((dispatchStep cfgNoKey initialServerState "suspend" none
        (TransportBehavior.jsonObject
          [("error", Json.null), ("result", Json.bool true)])).2.outcome
      = Except.ok (Json.bool true)) :=
  ⟨(C1_error_propagation cfgNoKey initialServerState "deckNames" none
      [("error", Json.str "deck was not found")]).1 rfl,
   (C1_error_propagation cfgNoKey initialServerState "suspend" none
      [("error", Json.null), ("result", Json.bool true)]).2 rfl⟩

/-- Counterexample to C1 as stated: for the envelope whose error field is
the empty string (hence not non-empty, so the claim predicts success), the
call does not succeed. -/
theorem C1_counterexample :
    (pyGet [("error", Json.str ""), ("result", Json.str "ok")] "error" = Json.str "")
    ∧ isOkB (transform_anki_connect_response
        [("error", Json.str ""), ("result", Json.str "ok")]) = false :=
  ⟨rfl, rfl⟩

/-- C2: for every success envelope, dispatch returns the result field of
the envelope exactly as received, with no transformation at any layer
between the transport response and the caller. -/
theorem C2_success_passthrough :
    ∀ (cfg : ClientConfig) (w : ServerState) (a : String) (m : Option PModel)
      (env : List (String × Json)),
      (pyGet env "error").isNull = true →
      (dispatchStep cfg w a m (TransportBehavior.jsonObject env)).2.outcome
        = Except.ok (pyGet env "result") := by
  intro cfg w a m env h
  simp [dispatchStep, clientRequest, requestResult,
    transform_anki_connect_response, h]

/-- Witness for the C2 theorem at the deck-names scenario of the spec. -/
theorem C2_success_passthrough_witness :
    (dispatchStep cfgNoKey initialServerState "deckNames" (some [])
        (TransportBehavior.jsonObject
          [("error", Json.null),
           ("result", Json.arr [Json.str "Default", Json.str "Spanish"])])).2.outcome
      = Except.ok (Json.arr [Json.str "Default", Json.str "Spanish"]) :=
  C2_success_passthrough cfgNoKey initialServerState "deckNames" (some [])
    [("error", Json.null),
     ("result", Json.arr [Json.str "Default", Json.str "Spanish"])] rfl

/-- C3 (amended): every transport-level failure is surfaced as an
AnkiConnectError — the same exception class used for remote-action
failures, not a distinct kind — whose message is the corresponding
formatted text (the rendered httpx exception, which carries the status,
for a non-success status; a connect-failure text; a fixed invalid-response
text for a malformed body), and dispatch propagates the outcome of the
client request unchanged, wrapping nothing. -/
theorem C3_transport_failures :
    ∀ (cfg : ClientConfig) (w : ServerState) (a : String) (m : Option PModel)
      (d t : String) (b : TransportBehavior),
      ((dispatchStep cfg w a m (TransportBehavior.connectFailure d)).2.outcome
        = Except.error ⟨ExcClass.ankiConnectError,
            Json.str ("Failed to connect to Anki-Connect: " ++ d)⟩)
    ∧ ((dispatchStep cfg w a m (TransportBehavior.httpStatusFailure t)).2.outcome
        = Except.error ⟨ExcClass.ankiConnectError,
            Json.str ("Anki-Connect returned HTTP error: " ++ t)⟩)
    ∧ ((dispatchStep cfg w a m (TransportBehavior.invalidJson d)).2.outcome
        = Except.error ⟨ExcClass.ankiConnectError,
            Json.str "Invalid response from Anki-Connect"⟩)
    ∧ ((dispatchStep cfg w a m b).2.outcome = requestResult b) := by
  intro cfg w a m d t b
  refine ⟨?_, ?_, ?_, ?_⟩ <;> simp [dispatchStep, clientRequest, requestResult]

/-- Counterexample to C3 as stated: a non-success-status transport failure
and an endpoint-reported remote failure carry the same exception class
AnkiConnectError, so the transport failure is not a failure kind distinct
from the remote-action failure. -/
theorem C3_counterexample :
    errClassOf (requestResult (TransportBehavior.httpStatusFailure
        "Server error 500 Internal Server Error for url http://localhost:8765"))
      = some ExcClass.ankiConnectError
    ∧ errClassOf (requestResult (TransportBehavior.jsonObject
        [("error", Json.str "deck was not found")]))
      = some ExcClass.ankiConnectError :=
  ⟨rfl, rfl⟩

/-- C4 (amended): the serialized request envelope holds exactly the action
and the fixed protocol version, plus a params entry exactly when a model
argument is passed — including the empty object for a model with no set
fields — and a key entry exactly when the configured api key is truthy;
the action, version, params and key values are as the source builds
them. -/
theorem C4_request_envelope :
    ∀ (cfg : ClientConfig) (a : String) (model : Option PModel),
      (keysOf (buildRequestData cfg a model)
        = ["action", "version"]
          ++ (match model with | some _ => ["params"] | none => [])
          ++ (if strOptTruthy cfg.api_key then ["key"] else []))
    ∧ (pyGet (buildRequestData cfg a model) "action" = Json.str a)
    ∧ (pyGet (buildRequestData cfg a model) "version" = Json.num cfg.version)
    ∧ (pyGet (buildRequestData cfg a model) "params"
        = (match model with
           | some m => Json.obj (modelDumpExcludeNone m)
           | none => Json.null))
    ∧ (pyGet (buildRequestData cfg a model) "key"
        = (match cfg.api_key with
           | some k => if k.isEmpty then Json.null else Json.str k
           | none => Json.null)) := by
  intro cfg a model
  obtain ⟨u, key, v, tm⟩ := cfg
  rcases key with _ | k
  · cases model <;> refine ⟨?_, ?_, ?_, ?_, ?_⟩ <;>
      simp [buildRequestData, keysOf, pyGet, strOptTruthy]
  · by_cases hk : k.isEmpty <;> cases model <;> refine ⟨?_, ?_, ?_, ?_, ?_⟩ <;>
      simp [buildRequestData, keysOf, pyGet, strOptTruthy, hk]

/-- Counterexample to C4 as stated: a tool bound to a parameterless model
(NoParams in server.py) passes a model instance with no fields, whose dump
is the empty object; the serialized envelope nevertheless contains a
params entry holding that empty object, so an empty params object is not
omitted. -/
theorem C4_counterexample :
    modelDumpExcludeNone [] = []
    ∧ keysOf (buildRequestData cfgNoKey "deckNames" (some []))
        = ["action", "version", "params"]
    ∧ pyGet (buildRequestData cfgNoKey "deckNames" (some [])) "params"
        = Json.obj [] :=
  ⟨rfl, rfl, rfl⟩

/-- C5: for every parameter object lacking a cardsToo field equal to the
literal true — the field absent altogether, or present with any value
other than the boolean true — dispatching anki_delete_decks fails with a
validation error, the server state is untouched, and the transport send
is never invoked. -/
theorem C5_delete_decks_validation :
    ∀ (cfg : ClientConfig) (w : ServerState) (raw : List (String × Json))
      (b : TransportBehavior),
      raw.any (fun p => p.1 == "cardsToo" && isLitTrue p.2) = false →
      ((dispatchValidated cfg w DeleteDecksShape ExtraPolicy.ignore
          "deleteDecks" raw b).1 = w)
    ∧ ((dispatchValidated cfg w DeleteDecksShape ExtraPolicy.ignore
          "deleteDecks" raw b).2.1 = false)
    ∧ (isValidationError ((dispatchValidated cfg w DeleteDecksShape
          ExtraPolicy.ignore "deleteDecks" raw b).2.2) = true) := by
  intro cfg w raw b h
  have hne : ∀ (l : List String) (x : String), x ∈ l → l.isEmpty = false := by
    intro l x hx
    cases l with
    | nil => simp at hx
    | cons a t => rfl
  have hval : ∃ fs, validateShape DeleteDecksShape ExtraPolicy.ignore raw
      = Except.error fs := by
    by_cases hc : raw.any (fun p => p.1 == "cardsToo") = true
    · obtain ⟨p0, hp0mem, hp0key⟩ := List.any_eq_true.mp hc
      have hkey : p0.1 = "cardsToo" := by simpa using hp0key
      have hp0val : isLitTrue p0.2 = false := by
        by_contra hcontra
        rw [Bool.not_eq_false] at hcontra
        have hx : raw.any
            (fun p => p.1 == "cardsToo" && isLitTrue p.2) = true :=
          List.any_eq_true.mpr ⟨p0, hp0mem, by simp [hp0key, hcontra]⟩
        rw [h] at hx
        exact Bool.false_ne_true hx
      have hp0bad : DeleteDecksShape.any
          (fun f => f.fname == p0.1 && !(f.check p0.2)) = true := by
        simp [DeleteDecksShape, hkey, hp0val]
      have hmem : p0.1 ∈ badFields DeleteDecksShape raw :=
        List.mem_map.mpr ⟨p0, List.mem_filter.mpr ⟨hp0mem, hp0bad⟩, rfl⟩
      have hbad := hne _ _ hmem
      by_cases hm : (missingFields DeleteDecksShape raw).isEmpty = true
      · exact ⟨badFields DeleteDecksShape raw,
          by simp [validateShape, hm, hbad]⟩
      · rw [Bool.not_eq_true] at hm
        exact ⟨missingFields DeleteDecksShape raw,
          by simp [validateShape, hm]⟩
    · rw [Bool.not_eq_true] at hc
      have hmem : "cardsToo" ∈ missingFields DeleteDecksShape raw := by
        apply List.mem_map.mpr
        refine ⟨⟨"cardsToo", true, isLitTrue⟩,
          List.mem_filter.mpr ⟨?_, ?_⟩, rfl⟩
        · exact List.mem_cons_of_mem _ (List.mem_cons_self _ _)
        · simp [hc]
      have hm := hne _ _ hmem
      exact ⟨missingFields DeleteDecksShape raw, by simp [validateShape, hm]⟩
  obtain ⟨fs, hfs⟩ := hval
  refine ⟨?_, ?_, ?_⟩ <;> simp [dispatchValidated, hfs, isValidationError]

/-- Witness for the C5 theorem at the delete-decks scenario of the spec:
only decks is supplied, cardsToo is absent. -/
theorem C5_delete_decks_validation_witness :
    ((dispatchValidated cfgNoKey initialServerState DeleteDecksShape
        ExtraPolicy.ignore "deleteDecks" [("decks", Json.arr [Json.str "X"])]
        (TransportBehavior.jsonObject [("error", Json.null)])).1
      = initialServerState)
    ∧ ((dispatchValidated cfgNoKey initialServerState DeleteDecksShape
        ExtraPolicy.ignore "deleteDecks" [("decks", Json.arr [Json.str "X"])]
        (TransportBehavior.jsonObject [("error", Json.null)])).2.1 = false)
    ∧ (isValidationError ((dispatchValidated cfgNoKey initialServerState
        DeleteDecksShape ExtraPolicy.ignore "deleteDecks"
        [("decks", Json.arr [Json.str "X"])]
        (TransportBehavior.jsonObject [("error", Json.null)])).2.2) = true) :=
  C5_delete_decks_validation cfgNoKey initialServerState
    [("decks", Json.arr [Json.str "X"])]
    (TransportBehavior.jsonObject [("error", Json.null)]) rfl

/-- Every field name reported missing is the name of a declared field of
the shape. -/
theorem missingFields_all_declared (shape : List FieldSpec)
    (raw : List (String × Json)) :
    (missingFields shape raw).all
      (fun n => shape.any (fun f => f.fname == n)) = true := by
  simp only [missingFields, List.all_eq_true, List.mem_map, List.mem_filter]
  rintro n ⟨f, ⟨hf, _⟩, rfl⟩
  simp only [List.any_eq_true]
  exact ⟨f, hf, by simp⟩

/-- Every field name reported as failing its check is the name of a
declared field of the shape. -/
theorem badFields_all_declared (shape : List FieldSpec)
    (raw : List (String × Json)) :
    (badFields shape raw).all
      (fun n => shape.any (fun f => f.fname == n)) = true := by
  simp only [badFields, List.all_eq_true, List.mem_map, List.mem_filter]
  rintro n ⟨p, ⟨hp, hany⟩, rfl⟩
  simp only [List.any_eq_true, Bool.and_eq_true] at hany ⊢
  obtain ⟨f, hf, hname, _⟩ := hany
  exact ⟨f, hf, hname⟩

/-- C6 (amended): under the default policy unknown extra fields are
silently dropped from the validated instance, not rejected; under the
allow policy (declared only by DeckConfigObject) the validated instance
keeps every supplied field; and a validation rejection only ever names
declared fields, so the presence of an unknown field is never a reason
for rejection. -/
theorem C6_extra_fields :
    ∀ (shape : List FieldSpec) (policy : ExtraPolicy)
      (raw : List (String × Json)),
      (match validateShape shape ExtraPolicy.ignore raw with
       | Except.ok kept =>
           kept = raw.filter (fun p => shape.any (fun f => f.fname == p.1))
       | Except.error _ => True)
    ∧ (match validateShape shape ExtraPolicy.allow raw with
       | Except.ok kept => kept = raw
       | Except.error _ => True)
    ∧ (match validateShape shape policy raw with
       | Except.error fs =>
           fs.all (fun n => shape.any (fun f => f.fname == n)) = true
       | Except.ok _ => True) := by
  intro shape policy raw
  refine ⟨?_, ?_, ?_⟩ <;>
    (try cases policy) <;>
      by_cases h1 : (missingFields shape raw).isEmpty <;>
        by_cases h2 : (badFields shape raw).isEmpty <;>
          simp [validateShape, h1, h2, missingFields_all_declared,
            badFields_all_declared]

/-- Counterexample to C6 as stated: for the cards binding (shape without
an open declaration), a parameter object with the unknown extra field
bogus validates successfully with the extra silently dropped, instead of
being rejected with a validation error. -/
theorem C6_counterexample :
    validateShape CardsShape ExtraPolicy.ignore
        [("cards", Json.arr [Json.num 1]), ("bogus", Json.bool true)]
      = Except.ok [("cards", Json.arr [Json.num 1])] := rfl

/-- C7: a failed call leaves the client handle exactly as the call made it
on entry — the httpx client is present (open) afterwards — and a
subsequent call from the post-failure state behaves exactly as it would
have had the failed call never occurred. -/
theorem C7_failure_preserves_state :
    ∀ (cfg : ClientConfig) (s : ClientState) (a : String) (m : Option PModel)
      (b : TransportBehavior),
      isOkB (clientRequest cfg s a m b).2.2 = false →
      ((clientRequest cfg s a m b).1 = ensure_client s)
    ∧ (((clientRequest cfg s a m b).1).client.isSome = true)
    ∧ (∀ (a2 : String) (m2 : Option PModel) (b2 : TransportBehavior),
        clientRequest cfg (clientRequest cfg s a m b).1 a2 m2 b2
          = clientRequest cfg s a2 m2 b2) := by
  intro cfg s a m b _
  refine ⟨rfl, ensure_client_isSome s, ?_⟩
  intro a2 m2 b2
  simp [clientRequest, ensure_client_idem]

/-- Witness for the C7 theorem: a connection failure on a fresh client
leaves an open httpx client behind. -/
theorem C7_failure_preserves_state_witness :
    ((clientRequest cfgNoKey ⟨none, 0⟩ "version" none
        (TransportBehavior.connectFailure "connection refused")).1).client.isSome
      = true :=
  (C7_failure_preserves_state cfgNoKey ⟨none, 0⟩ "version" none
    (TransportBehavior.connectFailure "connection refused") rfl).2.1

/-- C9: check_connection issues the version action with no params entry in
the envelope, returns true exactly when the request completes without
error, and is a total boolean — every failure of any kind yields false
rather than propagating. -/
theorem C9_check_connection :
    ∀ (cfg : ClientConfig) (s : ClientState) (b : TransportBehavior),
      ((check_connection cfg s b).2.2 = isOkB (requestResult b))
    ∧ ((check_connection cfg s b).2.1 = buildRequestData cfg "version" none)
    ∧ ((keysOf (buildRequestData cfg "version" none)).contains "params" = false)
    ∧ (pyGet (buildRequestData cfg "version" none) "action" = Json.str "version")
    ∧ ((check_connection cfg s b).1 = ensure_client s) := by
  intro cfg s b
  obtain ⟨u, key, v, tm⟩ := cfg
  have h34 : ((keysOf (buildRequestData ⟨u, key, v, tm⟩ "version" none)).contains
          "params" = false)
      ∧ (pyGet (buildRequestData ⟨u, key, v, tm⟩ "version" none) "action"
          = Json.str "version") := by
    rcases key with _ | k
    · constructor <;> simp [buildRequestData, keysOf, pyGet]
    · by_cases hk : k.isEmpty <;> constructor <;>
        simp [buildRequestData, keysOf, pyGet, hk]
  exact ⟨rfl, rfl, h34.1, h34.2, rfl⟩

/-- Every dispatch invokes the send and leaves the registered instance
holding an open httpx client. -/
theorem dispatch_record_basic (cfg : ClientConfig) (w : ServerState)
    (a : String) (m : Option PModel) (b : TransportBehavior) :
    (dispatchStep cfg w a m b).2.sendInvoked = true
    ∧ instClientIsSome ((dispatchStep cfg w a m b).1) = true := by
  cases hw : w.inst <;>
    simp [dispatchStep, get_anki_client, hw, clientRequest, instClientIsSome,
      ensure_client_isSome]

/-- A dispatch preserves the server invariant and uses instance 0. -/
theorem serverInv_dispatch (cfg : ClientConfig) (w : ServerState)
    (a : String) (m : Option PModel) (b : TransportBehavior)
    (h : serverInv w = true) :
    serverInv (dispatchStep cfg w a m b).1 = true
    ∧ (dispatchStep cfg w a m b).2.instId = 0 := by
  cases hw : w.inst with
  | none =>
      simp [serverInv, hw] at h
      constructor <;> simp [dispatchStep, get_anki_client, hw, serverInv, h]
  | some ic =>
      simp [serverInv, hw] at h
      constructor <;>
        simp [dispatchStep, get_anki_client, hw, serverInv, h.1, h.2]

/-- An explicit close preserves the server invariant. -/
theorem serverInv_close (w : ServerState) (h : serverInv w = true) :
    serverInv (closeStep w) = true := by
  cases hw : w.inst with
  | none => simpa [closeStep, hw] using h
  | some ic =>
      simp [serverInv, hw] at h
      simp [closeStep, hw, serverInv, close_client, h.1, h.2]

/-- Under the server invariant at most one instance has been
constructed. -/
theorem serverInv_created_le (w : ServerState) (h : serverInv w = true) :
    w.created ≤ 1 := by
  cases hw : w.inst with
  | none => simp [serverInv, hw] at h; omega
  | some ic => simp [serverInv, hw] at h; omega

/-- Running any operation sequence from an invariant state keeps the
invariant, and every dispatched call in the trace used instance 0 and
issued its send. -/
theorem runOps_inv :
    ∀ (ops : List Op) (cfg : ClientConfig) (w : ServerState),
      serverInv w = true →
      serverInv (runOps cfg w ops).1 = true
      ∧ (runOps cfg w ops).2.all
          (fun r => r.instId == 0 && r.sendInvoked) = true := by
  intro ops
  induction ops with
  | nil => intro cfg w h; simpa [runOps] using h
  | cons op rest ih =>
      intro cfg w h
      cases op with
      | dispatch a m b =>
          have hd := serverInv_dispatch cfg w a m b h
          have hb := dispatch_record_basic cfg w a m b
          have hr := ih cfg (dispatchStep cfg w a m b).1 hd.1
          simp [runOps, hr.1, hr.2, hd.2, hb.1]
      | close =>
          have hc := serverInv_close w h
          have hr := ih cfg (closeStep w) hc
          simpa [runOps] using hr

/-- After an explicit close the registered instance holds no httpx
client. -/
theorem closeStep_client_none (w : ServerState) :
    instClientIsNone (closeStep w) = true := by
  cases hw : w.inst <;>
    simp [closeStep, hw, instClientIsNone, close_client]

/-- C8: across any sequence of dispatch and close operations from process
start there is a single, lazily created shared client instance — no
instance exists initially, at most one construction ever happens, and
every dispatched call in the trace used instance 0 and issued its send —
and after an explicit close (which leaves the instance without its httpx
client) the next dispatch issues its send and leaves the instance holding
a recreated httpx client. -/
theorem C8_shared_instance :
    ∀ (cfg : ClientConfig) (ops : List Op) (a : String) (m : Option PModel)
      (b : TransportBehavior),
      ((runOps cfg initialServerState ops).2.all
          (fun r => r.instId == 0 && r.sendInvoked) = true)
    ∧ ((runOps cfg initialServerState ops).1.created ≤ 1)
    ∧ (initialServerState.inst = none)
    ∧ (instClientIsNone (closeStep (runOps cfg initialServerState ops).1) = true)
    ∧ ((dispatchStep cfg (closeStep (runOps cfg initialServerState ops).1)
          a m b).2.sendInvoked = true)
    ∧ (instClientIsSome ((dispatchStep cfg
          (closeStep (runOps cfg initialServerState ops).1) a m b).1) = true) := by
  intro cfg ops a m b
  have h0 : serverInv initialServerState = true := rfl
  have hr := runOps_inv ops cfg initialServerState h0
  have hb := dispatch_record_basic cfg
    (closeStep (runOps cfg initialServerState ops).1) a m b
  exact ⟨hr.2, serverInv_created_le _ hr.1, rfl,
    closeStep_client_none _, hb.1, hb.2⟩

end AnkiMCP
